import Mathlib

/-!
Verification development for the chat-completion client in
`automated_llm_eval/chat_model.py`.

The Python module is shallowly embedded here:
* Python dicts are association lists (`PyDict`) with Python's `|` (union),
  in-place-update and `pop` semantics;
* the remote OpenAI client is a parameter (`client`), indexed by the attempt
  counter so that stub behaviours ("always fails", "always succeeds") can be
  expressed, exactly like the instrumented stubs the specification describes;
* exceptions are `Except String`;
* Python `None` results are `Option.none`;
* machine-independent Python ints are `Int`; float-valued configuration
  (temperature, top_p) is carried opaquely as `ℚ` literals — the code never
  computes with these values, it only stores and echoes them.
-/

/-- One entry of the `messages` list: a `{"role": ..., "content": ...}` dict. -/
structure MsgEntry where
  role : String
  content : String
  deriving DecidableEq, Repr

/-- Embeds `MessagesType = list[dict[str, str]] | Message` from the source:
either the raw message list, or a `Message` named tuple wrapping the list
together with a metadata dict. -/
inductive MessagesType where
  | plain : List MsgEntry → MessagesType
  | message : List MsgEntry → List (String × String) → MessagesType
  deriving DecidableEq, Repr

/-- Unwraps a possible wrapper: `if isinstance(msgs, Message): msgs = msgs.messages`. -/
def unwrapMessages : MessagesType → List MsgEntry
  | .plain ms => ms
  | .message ms _ => ms

/-- The metadata carried by a `Message` wrapper (`None` for a raw list). -/
def messagesMetadata : MessagesType → Option (List (String × String))
  | .plain _ => none
  | .message _ md => some md

/-- Values stored in Python dicts / named-tuple fields in this module. -/
inductive Value where
  | none : Value
  | str : String → Value
  | int : Int → Value
  | num : ℚ → Value
  | dict : List (String × String) → Value
  | msgs : MessagesType → Value
  deriving DecidableEq, Repr

/-- A Python dict: association list, insertion-ordered, keys unique when
built by dict operations. -/
abbrev PyDict := List (String × Value)

/-- Lookup (`d[key]` / `d.get(key)`): first matching entry. -/
def dictGet (d : PyDict) (key : String) : Option Value :=
  (d.find? (fun kv => kv.1 == key)).map (fun kv => kv.2)

/-- Assignment `d[key] = v`: update the entry in place if the key is present
(keeping its position, as Python dicts do), else append. -/
def dictInsert : PyDict → String → Value → PyDict
  | [], key, v => [(key, v)]
  | kv :: rest, key, v =>
    if kv.1 = key then (key, v) :: rest else kv :: dictInsert rest key v

/-- Python dict union `d1 | d2`: entries of `d2` written over `d1`,
right operand taking precedence on common keys. -/
def dictUnion (d1 d2 : PyDict) : PyDict :=
  d2.foldl (fun acc kv => dictInsert acc kv.1 kv.2) d1

/-- Removal `if key in d: d.pop(key)` — drop the key when present. -/
def dictRemove (d : PyDict) (key : String) : PyDict :=
  d.filter (fun kv => !(kv.1 == key))

/-- Token usage of a completion (`cc.usage`). -/
structure Usage where
  total_tokens : Int
  prompt_tokens : Int
  completion_tokens : Int
  deriving DecidableEq, Repr

/-- The raw `ChatCompletion` object returned by the remote client.
`choices` models `[choice.message.content for choice in cc.choices]`;
a content may be `None`. -/
structure ChatCompletionObj where
  id : String
  created : Int
  model : String
  choices : List (Option String)
  usage : Usage
  deriving DecidableEq, Repr

/-- The `Bundle` named tuple (fields in source order, all defaulting to
`None`). -/
structure Bundle where
  id : Value := .none
  system_message : Value := .none
  user_message : Value := .none
  metadata : Value := .none
  response_message : Value := .none
  created_time : Value := .none
  model : Value := .none
  total_tokens : Value := .none
  prompt_tokens : Value := .none
  completion_tokens : Value := .none
  seed : Value := .none
  temperature : Value := .none
  top_p : Value := .none
  max_tokens : Value := .none
  deriving DecidableEq, Repr

/-- Assign one keyword argument of the `Bundle(...)` constructor;
`none` when the name is not a `Bundle` field (Python `TypeError`). -/
def bundleSetField (b : Bundle) (key : String) (v : Value) : Option Bundle :=
  match key with
  | "id" => some { b with id := v }
  | "system_message" => some { b with system_message := v }
  | "user_message" => some { b with user_message := v }
  | "metadata" => some { b with metadata := v }
  | "response_message" => some { b with response_message := v }
  | "created_time" => some { b with created_time := v }
  | "model" => some { b with model := v }
  | "total_tokens" => some { b with total_tokens := v }
  | "prompt_tokens" => some { b with prompt_tokens := v }
  | "completion_tokens" => some { b with completion_tokens := v }
  | "seed" => some { b with seed := v }
  | "temperature" => some { b with temperature := v }
  | "top_p" => some { b with top_p := v }
  | "max_tokens" => some { b with max_tokens := v }
  | _ => none

/-- Constructor call `Bundle(**fields)`: assign every keyword in order; a repeated keyword or
an unknown keyword raises a `TypeError` (here: `Except.error`). -/
def bundleOfFields (fields : List (String × Value)) : Except String Bundle :=
  (fields.foldlM
    (fun (st : Bundle × List String) (kv : String × Value) =>
      if st.2.contains kv.1 then
        (Except.error "TypeError: got multiple values for argument" :
          Except String (Bundle × List String))
      else
        match bundleSetField st.1 kv.1 kv.2 with
        | some b2 => Except.ok (b2, kv.1 :: st.2)
        | Option.none => Except.error "TypeError: unexpected keyword argument"
      )
    ((({} : Bundle), ([] : List String)))).map (fun st => st.1)

/-- Method `Bundle._asdict()`: the fields as an ordered dict. -/
def bundleAsDict (b : Bundle) : PyDict :=
  [("id", b.id), ("system_message", b.system_message),
   ("user_message", b.user_message), ("metadata", b.metadata),
   ("response_message", b.response_message), ("created_time", b.created_time),
   ("model", b.model), ("total_tokens", b.total_tokens),
   ("prompt_tokens", b.prompt_tokens), ("completion_tokens", b.completion_tokens),
   ("seed", b.seed), ("temperature", b.temperature), ("top_p", b.top_p),
   ("max_tokens", b.max_tokens)]

/-- A possibly-`None` string as a `Value`. -/
def optValOfStr : Option String → Value
  | some s => .str s
  | Option.none => .none

/-- Metadata (possibly `None`) as a `Value`. -/
def metadataValue : Option (List (String × String)) → Value
  | some md => .dict md
  | Option.none => .none

/-- The possible return shapes of `parse_chat_completion_response`
(`ChatCompletion | str | Bundle | dict | None`). Python collapses the three
`None`-shaped results into one value; the constructors keep the originating
branch visible, which no claim distinguishes. -/
inductive ParseOutput where
  | raw : Option ChatCompletionObj → ParseOutput
  | simple : Option String → ParseOutput
  | pynone : ParseOutput
  | bundle : Bundle → ParseOutput
  | bundle_dict : PyDict → ParseOutput
  deriving DecidableEq, Repr

/-- The caller-owned objects `parse_chat_completion_response` receives by
reference: the raw completion and the original input messages. The embedding
returns this state alongside the result so that any mutation of the caller's
objects would be observable. -/
structure ParseState where
  cc : Option ChatCompletionObj
  messages : Option MessagesType
  deriving DecidableEq, Repr

/-- Embedding of `ChatModel.parse_chat_completion_response` from the source.

Steps, in source order: (1) if `messages` is given, unpack a `Message`
wrapper, select the first system-role and first user-role entries
(`[...][0]` — an `IndexError` when the filtered list is empty), and write
`system_message` / `user_message` / `metadata` into the local kwargs dict;
(2) pop `model` and `n` from the kwargs; (3) dispatch on `output_format`.
The local kwargs dict is the only thing the Python function mutates (it is
fresh at each call, being `**kwargs`); the caller's `cc` and `messages` are
only read, so every exit returns the input `ParseState` unchanged. -/
def parse_chat_completion_response (st : ParseState) (output_format : Option String)
    (kwargs : PyDict) : Except String ParseOutput × ParseState :=
  let kwargsResult : Except String PyDict :=
    match st.messages with
    | Option.none => .ok kwargs
    | some m =>
      let msgs := unwrapMessages m
      let metadata := messagesMetadata m
      match (msgs.filter (fun e => e.role == "system")).head? with
      | Option.none => .error "IndexError: list index out of range"
      | some sys =>
        match (msgs.filter (fun e => e.role == "user")).head? with
        | Option.none => .error "IndexError: list index out of range"
        | some usr =>
          .ok (dictUnion kwargs
            [("system_message", .str sys.content),
             ("user_message", .str usr.content),
             ("metadata", metadataValue metadata)])
  match kwargsResult with
  | .error e => (.error e, st)
  | .ok kwargs1 =>
    let kwargs2 := dictRemove (dictRemove kwargs1 "model") "n"
    match output_format with
    | some "simple" =>
      match st.cc with
      | Option.none => (.ok .pynone, st)
      | some c =>
        match c.choices.head? with
        | Option.none => (.error "IndexError: list index out of range", st)
        | some content => (.ok (.simple content), st)
    | some "bundle" | some "bundle_dict" =>
      match st.cc with
      | Option.none =>
        if output_format = some "bundle_dict" then
          (.ok (.bundle_dict (bundleAsDict {})), st)
        else
          (.ok (.bundle {}), st)
      | some c =>
        match c.choices.head? with
        | Option.none => (.error "IndexError: list index out of range", st)
        | some content =>
          match bundleOfFields
              ([("id", .str c.id), ("response_message", optValOfStr content),
                ("created_time", .int c.created), ("model", .str c.model),
                ("total_tokens", .int c.usage.total_tokens),
                ("prompt_tokens", .int c.usage.prompt_tokens),
                ("completion_tokens", .int c.usage.completion_tokens)]
               ++ kwargs2) with
          | .error e => (.error e, st)
          | .ok b =>
            if output_format = some "bundle_dict" then
              (.ok (.bundle_dict (bundleAsDict b)), st)
            else
              (.ok (.bundle b), st)
    | some "raw" => (.ok (.raw st.cc), st)
    | Option.none => (.ok (.raw st.cc), st)
    | some _ => (.ok (.raw st.cc), st)

/-- The module-level default validation callback: always accepts. -/
def validation_callback (messages : MessagesType) (response : ParseOutput) : Bool :=
  true

/-- The `ChatModel` dataclass fields used as per-call defaults
(the two API clients are the `client` parameter of `chat_completion`). -/
structure ChatModel where
  model : Value := .str "gpt-3.5-turbo"
  temperature : Value := .num (9 / 10 : ℚ)
  top_p : Value := .num (9 / 10 : ℚ)
  max_tokens : Value := .none
  n : Value := .int 1
  seed : Value := .none
  deriving DecidableEq, Repr

/-- The `default_kwargs` dict as built at the top of `chat_completion` /
`async_chat_completion`. -/
def default_kwargs (self : ChatModel) (messages : MessagesType) : PyDict :=
  [("messages", .msgs messages), ("model", self.model),
   ("temperature", self.temperature), ("top_p", self.top_p),
   ("max_tokens", self.max_tokens), ("n", self.n), ("seed", self.seed)]

/-- Merge `updated_kwargs = default_kwargs | kwargs`: per-call keyword arguments
merged over the instance defaults, the explicit per-call values winning. -/
def updated_kwargs (self : ChatModel) (messages : MessagesType)
    (kwargs : PyDict) : PyDict :=
  dictUnion (default_kwargs self messages) kwargs

/-- Outcome of one `chat_completion` call, instrumented the way the
specification's testable properties demand: `result` is the Python return
value; `attempts` counts the remote-client invocations made (what the
spec's instrumented stub would record); `budget_trace` records the
successive values taken by the `num_retries` counter, including the
decremented value tested by `attempt_retry` on the abandoning call. -/
structure ChatOutcome where
  result : Option ParseOutput
  attempts : Nat
  budget_trace : List Int
  deriving DecidableEq, Repr

/-- Embedding of `ChatModel.chat_completion` from the source.

`client` stands for `self.sync_client.chat.completions.create`, indexed by a
global attempt counter `attempt` so stub behaviours can vary per attempt; it
receives the unwrapped message list and the formatted `api_kwargs`, and
either returns a completion or raises.

The `try` block performs: remote call → `parse_chat_completion_response` →
`validation_cb`. Any raised error, and likewise a validator rejection, goes
through `attempt_retry(num_retries - 1)`: if the decremented counter is
still positive the method re-invokes itself with it — passing
`**updated_kwargs` (so `messages` and the merged kwargs round-trip) but NOT
the caller's validator, so the recursive call falls back to the module-level
default `validation_callback`; otherwise it returns `None`.

(The recursive `messages` argument is written directly: inside any executing
call, `updated_kwargs["messages"]` is exactly the `messages` parameter,
since a caller whose `kwargs` contained a `"messages"` key would have raised
a `TypeError` at the original call site.) -/
def chat_completion
    (client : Nat → List MsgEntry → PyDict → Except String ChatCompletionObj)
    (self : ChatModel) (attempt : Nat) (messages : MessagesType)
    (output_format : Option String) (num_retries : Int)
    (validation_cb : MessagesType → ParseOutput → Bool)
    (kwargs : PyDict) : ChatOutcome :=
  let updated := updated_kwargs self messages kwargs
  let api_kwargs := dictRemove updated "messages"
  let msgs := unwrapMessages messages
  match client attempt msgs api_kwargs with
  | .error _ =>
    if h : 0 < num_retries - 1 then
      let o := chat_completion client self (attempt + 1) messages output_format
        (num_retries - 1) validation_callback api_kwargs
      ⟨o.result, o.attempts + 1, num_retries :: o.budget_trace⟩
    else
      ⟨none, 1, [num_retries, num_retries - 1]⟩
  | .ok cc =>
    match (parse_chat_completion_response ⟨some cc, some messages⟩
        output_format api_kwargs).1 with
    | .error _ =>
      if h : 0 < num_retries - 1 then
        let o := chat_completion client self (attempt + 1) messages output_format
          (num_retries - 1) validation_callback api_kwargs
        ⟨o.result, o.attempts + 1, num_retries :: o.budget_trace⟩
      else
        ⟨none, 1, [num_retries, num_retries - 1]⟩
    | .ok response =>
      if validation_cb messages response then
        ⟨some response, 1, [num_retries]⟩
      else
        if h : 0 < num_retries - 1 then
          let o := chat_completion client self (attempt + 1) messages output_format
            (num_retries - 1) validation_callback api_kwargs
          ⟨o.result, o.attempts + 1, num_retries :: o.budget_trace⟩
        else
          ⟨none, 1, [num_retries, num_retries - 1]⟩
termination_by num_retries.toNat
decreasing_by
  all_goals omega

/-- Embedding of `ChatModel.async_chat_completion`: the source body is the identical
retry/validation logic, awaiting `self.async_client` instead of calling
`self.sync_client`; both clients are abstracted by the same `client`
parameter, so the embedding coincides. -/
def async_chat_completion
    (client : Nat → List MsgEntry → PyDict → Except String ChatCompletionObj)
    (self : ChatModel) (attempt : Nat) (messages : MessagesType)
    (output_format : Option String) (num_retries : Int)
    (validation_cb : MessagesType → ParseOutput → Bool)
    (kwargs : PyDict) : ChatOutcome :=
  chat_completion client self attempt messages output_format num_retries
    validation_cb kwargs

/-- The result store of the concurrent batch: each created task's resolved
value, addressed by original request index (`none` = still pending). -/
abbrev TaskStore := Nat → Option ChatOutcome

/-- Tasks completing in the order `completion_order` (a permutation of the
request indices chosen by remote latency): task `i` resolves to
`task messages_list[i]`. Completion order only determines WHEN each cell is
filled, never WHAT it holds. -/
def completeTasks (task : MessagesType → ChatOutcome)
    (messages_list : List MessagesType) (completion_order : List Nat) : TaskStore :=
  completion_order.foldl
    (fun st i => fun j => if j = i then (messages_list.get? i).map task else st j)
    (fun _ => none)

/-- The final gather of `generate_concurrent`:
`cc_list = [await task for task in task_list]` collects each task's resolved
value by original request index, in task-creation (= input) order. -/
def gatherByIndex (task : MessagesType → ChatOutcome)
    (messages_list : List MessagesType) (completion_order : List Nat) :
    List (Option ChatOutcome) :=
  (List.range messages_list.length).map
    (completeTasks task messages_list completion_order)

/-- The inner `generate_concurrent` of `async_chat_completions`: one task per
request is created in input order (`task_list`); the `as_completed` progress
loop observes completions in arrival order (`completion_order`) purely for
reporting (it iterates zero times for an empty batch); then
`await asyncio.wait(task_list)` — which raises
`ValueError: Set of Tasks/Futures is empty.` when `task_list` is empty, i.e.
exactly when `messages_list` is empty — and finally
`[await task for task in task_list]` collects each task's resolved value by
original request index. -/
def generate_concurrent (task : MessagesType → ChatOutcome)
    (messages_list : List MessagesType) (completion_order : List Nat) :
    Except String (List (Option ChatOutcome)) :=
  if messages_list.isEmpty then
    .error "ValueError: Set of Tasks/Futures is empty."
  else
    .ok (gatherByIndex task messages_list completion_order)

/-- Outcome of one `async_chat_completions` call: the gathered result list,
the `TimeoutError` raised by `asyncio.wait_for`, or any other exception
propagating out of the `generate_concurrent` task (on the loop path it is
re-raised by awaiting the task, on the fallback path by `asyncio.run`). -/
inductive DispatchOutcome where
  | results : List (Option ChatOutcome) → DispatchOutcome
  | batchTimeout : DispatchOutcome
  | error : String → DispatchOutcome
  deriving DecidableEq, Repr

/-- Embedding of `ChatModel.async_chat_completions` from the source.

The real-time behaviour is abstracted by two parameters: `duration` is the
wall-clock time the `generate_concurrent` task runs for (until it finishes,
normally or by raising), and `asyncio.wait_for(tsk, timeout=timeout)` raises
`TimeoutError` exactly when `timeout` is set and elapses first
(`t < duration`); otherwise the task's own outcome — its result list or the
exception it raised — is propagated. The source has two execution paths:
when a running event loop exists, the collector task is awaited through
`asyncio.wait_for` with the caller's `timeout`; otherwise the coroutine is
executed with `asyncio.run(generate_concurrent())`, to which `timeout` is
never passed, so only the task's own outcome is ever reported there. -/
def async_chat_completions (task : MessagesType → ChatOutcome)
    (messages_list : List MessagesType) (completion_order : List Nat)
    (loop_is_running : Bool) (timeout : Option Nat) (duration : Nat) :
    DispatchOutcome :=
  if loop_is_running then
    match timeout with
    | some t =>
      if t < duration then .batchTimeout
      else
        match generate_concurrent task messages_list completion_order with
        | .error e => .error e
        | .ok res => .results res
    | none =>
      match generate_concurrent task messages_list completion_order with
      | .error e => .error e
      | .ok res => .results res
  else
    match generate_concurrent task messages_list completion_order with
    | .error e => .error e
    | .ok res => .results res

/-- Phase of one `generation_task` with respect to the admission gate:
`waiting` = before `async with semaphore` grants a slot; `holding` = inside
the with-block, i.e. while `async_chat_completion` (the remote call) runs;
`done` = after the block exited — normally or by exception, `async with`
releases the slot on both paths. -/
inductive TaskPhase where
  | waiting : TaskPhase
  | holding : TaskPhase
  | done : TaskPhase
  deriving DecidableEq, Repr

/-- Number of tasks currently holding a slot of the admission gate. -/
def holdersCount (s : List TaskPhase) : Nat :=
  s.countP (fun p => p == TaskPhase.holding)

/-- One scheduler transition of the cooperative task set of
`async_chat_completions`, for a `BoundedSemaphore` of capacity `k`:
a waiting task may acquire a slot only while fewer than `k` are held
(`semaphore.acquire` suspends otherwise), and a holding task finishing its
`async_chat_completion` — with either outcome `success = true` or
`success = false` — leaves the `async with` block and releases its slot. -/
inductive SemStep (k : Nat) : List TaskPhase → List TaskPhase → Prop
  | acquire (s : List TaskPhase) (i : Nat) (hi : s[i]? = some .waiting)
      (hcap : holdersCount s < k) : SemStep k s (s.set i .holding)
  | finish (s : List TaskPhase) (i : Nat) (success : Bool)
      (hi : s[i]? = some .holding) : SemStep k s (s.set i .done)

/-- States of the batch reachable by the scheduler: initially every created
task is waiting on the gate (tasks are launched eagerly for the whole
batch), then transitions fire in any order. -/
inductive SemReachable (k : Nat) : List TaskPhase → Prop
  | init (n : Nat) : SemReachable k (List.replicate n .waiting)
  | step (s s' : List TaskPhase) (hs : SemReachable k s) (h : SemStep k s s') :
      SemReachable k s'

/-- Concrete good input messages: one system entry, one user entry. -/
def goodMessages : MessagesType :=
  .plain [⟨"system", "You are a helpful assistant."⟩, ⟨"user", "Hi"⟩]

/-- A concrete completion for the stub client, distinct per attempt. -/
def ccStub (i : Nat) : ChatCompletionObj :=
  ⟨toString i, Int.ofNat i, "gpt-test", [some "ok"], ⟨3, 2, 1⟩⟩

/-- Stub remote client that always raises (transport failure). -/
def alwaysFailClient (attempt : Nat) (ms : List MsgEntry) (api : PyDict) :
    Except String ChatCompletionObj :=
  .error "APIError"

/-- Stub remote client that always succeeds. -/
def alwaysOkClient (attempt : Nat) (ms : List MsgEntry) (api : PyDict) :
    Except String ChatCompletionObj :=
  .ok (ccStub attempt)

/-! Helper lemmas about the Python-dict embedding. -/

theorem dictGet_nil (x : String) : dictGet [] x = none := rfl

theorem dictGet_cons (a : String) (b : Value) (rest : PyDict) (x : String) :
    dictGet ((a, b) :: rest) x = if a = x then some b else dictGet rest x := by
  by_cases h : a = x
  · simp [dictGet, List.find?, h]
  · have hb : (a == x) = false := by simp [h]
    simp [dictGet, List.find?, h, hb]

theorem dictGet_dictInsert (d : PyDict) (key : String) (v : Value) (x : String) :
    dictGet (dictInsert d key v) x = if x = key then some v else dictGet d x := by
  induction d with
  | nil =>
    show dictGet [(key, v)] x = _
    rw [dictGet_cons]
    by_cases hx : x = key
    · rw [if_pos hx.symm, if_pos hx]
    · rw [if_neg (fun h => hx h.symm), if_neg hx, dictGet_nil]
  | cons kv rest ih =>
    obtain ⟨a, b⟩ := kv
    by_cases hk : a = key
    · subst hk
      rw [show dictInsert ((a, b) :: rest) a v = (a, v) :: rest from by
        simp [dictInsert]]
      by_cases hx : x = a
      · subst hx
        simp [dictGet_cons]
      · have ha : ¬ a = x := fun h => hx h.symm
        simp [dictGet_cons, hx, ha]
    · rw [show dictInsert ((a, b) :: rest) key v = (a, b) :: dictInsert rest key v from by
        simp [dictInsert, hk]]
      by_cases ha : a = x
      · have hx : ¬ x = key := fun h => hk (ha.trans h)
        simp [dictGet_cons, ha, hx]
      · simp [dictGet_cons, ha, ih]

theorem mem_keys_of_dictGet (k : PyDict) (x : String) (v : Value)
    (h : dictGet k x = some v) : x ∈ k.map Prod.fst := by
  induction k with
  | nil => simp [dictGet_nil] at h
  | cons kv rest ih =>
    obtain ⟨a, b⟩ := kv
    rw [dictGet_cons] at h
    by_cases ha : a = x
    · simp [ha]
    · rw [if_neg ha] at h
      simp [ih h]

theorem dictGet_dictUnion_of_none (d k : PyDict) (x : String)
    (hx : dictGet k x = none) : dictGet (dictUnion d k) x = dictGet d x := by
  induction k generalizing d with
  | nil => rfl
  | cons kv rest ih =>
    obtain ⟨a, b⟩ := kv
    rw [dictGet_cons] at hx
    by_cases ha : a = x
    · rw [if_pos ha] at hx; exact absurd hx (by simp)
    · rw [if_neg ha] at hx
      show dictGet (dictUnion (dictInsert d a b) rest) x = dictGet d x
      rw [ih _ hx, dictGet_dictInsert, if_neg (fun h => ha h.symm)]

theorem dictGet_dictUnion_of_some (d k : PyDict) (x : String) (v : Value)
    (hnd : (k.map Prod.fst).Nodup) (hx : dictGet k x = some v) :
    dictGet (dictUnion d k) x = some v := by
  induction k generalizing d with
  | nil => simp [dictGet_nil] at hx
  | cons kv rest ih =>
    obtain ⟨a, b⟩ := kv
    rw [dictGet_cons] at hx
    rw [List.map_cons, List.nodup_cons] at hnd
    show dictGet (dictUnion (dictInsert d a b) rest) x = some v
    by_cases ha : a = x
    · rw [if_pos ha] at hx
      have hrest : dictGet rest x = none := by
        cases hr : dictGet rest x with
        | none => rfl
        | some w =>
          exact absurd (mem_keys_of_dictGet rest x w hr) (ha ▸ hnd.1)
      rw [dictGet_dictUnion_of_none _ _ _ hrest, dictGet_dictInsert,
        if_pos ha.symm, hx]
    · rw [if_neg ha] at hx
      exact ih _ hnd.2 hx

/-! Helper lemmas about the concurrent dispatcher. -/

theorem taskStore_foldl (task : MessagesType → ChatOutcome)
    (l : List MessagesType) (order : List Nat) (st : TaskStore) (i : Nat) :
    (order.foldl
      (fun st j => fun m => if m = j then (l.get? j).map task else st m) st) i
      = if i ∈ order then (l.get? i).map task else st i := by
  induction order generalizing st with
  | nil => simp
  | cons a rest ih =>
    simp only [List.foldl_cons]
    rw [ih]
    by_cases hi : i ∈ rest
    · simp [hi]
    · by_cases ha : i = a
      · simp [ha, hi]
      · simp [ha, hi]

theorem gatherByIndex_eq_map (task : MessagesType → ChatOutcome)
    (l : List MessagesType) (order : List Nat)
    (horder : order.Perm (List.range l.length)) :
    gatherByIndex task l order = l.map (fun m => some (task m)) := by
  apply List.ext_getElem?
  intro i
  unfold gatherByIndex completeTasks
  rw [List.getElem?_map, List.getElem?_map]
  by_cases hi : i < l.length
  · rw [List.getElem?_range hi]
    have hmem : i ∈ order := horder.mem_iff.2 (List.mem_range.2 hi)
    simp only [Option.map_some']
    rw [taskStore_foldl, if_pos hmem]
    rw [List.get?_eq_getElem?, List.getElem?_eq_getElem hi]
    rfl
  · have h1 : (List.range l.length)[i]? = none := by
      rw [List.getElem?_eq_none]
      simp only [List.length_range]
      omega
    have h2 : l[i]? = none := List.getElem?_eq_none (by omega)
    rw [h1, h2]
    rfl

/-! Helper lemmas about the admission gate. -/

theorem holdersCount_replicate (n : Nat) :
    holdersCount (List.replicate n .waiting) = 0 := by
  induction n with
  | zero => rfl
  | succ n ih =>
    rw [List.replicate_succ]
    simp only [holdersCount, List.countP_cons] at *
    simp [ih]

theorem countP_set_phase (p : TaskPhase → Bool) (s : List TaskPhase) (i : Nat)
    (a b : TaskPhase) (hi : s[i]? = some a) :
    (s.set i b).countP p + (if p a then 1 else 0)
      = s.countP p + (if p b then 1 else 0) := by
  induction s generalizing i with
  | nil => simp at hi
  | cons hd tl ih =>
    cases i with
    | zero =>
      simp at hi
      subst hi
      simp [List.set, List.countP_cons]
      omega
    | succ j =>
      simp at hi
      simp only [List.set, List.countP_cons]
      have := ih j hi
      omega

theorem semaphore_bound_aux (k : Nat) (s : List TaskPhase)
    (h : SemReachable k s) : holdersCount s ≤ k := by
  induction h with
  | init n => rw [holdersCount_replicate]; omega
  | step s s' hs hstep ih =>
    cases hstep with
    | acquire i hi hcap =>
      have hc := countP_set_phase (fun p => p == TaskPhase.holding) s i
        .waiting .holding hi
      simp at hc
      simp only [holdersCount] at *
      omega
    | finish i success hi =>
      have hc := countP_set_phase (fun p => p == TaskPhase.holding) s i
        .holding .done hi
      simp at hc
      simp only [holdersCount] at *
      omega

/-! Helper lemmas about the retry engine. -/

/-- Exhaustive case analysis of one `chat_completion` invocation: either the
attempt is accepted, or `attempt_retry` recurses with the decremented budget
and the module-level default validator, or the call abandons with `None`. -/
theorem chat_completion_cases
    (client : Nat → List MsgEntry → PyDict → Except String ChatCompletionObj)
    (self : ChatModel) (a : Nat) (m : MessagesType) (fmt : Option String)
    (r : Int) (vcb : MessagesType → ParseOutput → Bool) (kw : PyDict) :
    (∃ resp, vcb m resp = true ∧
      chat_completion client self a m fmt r vcb kw = ⟨some resp, 1, [r]⟩) ∨
    (0 < r - 1 ∧ chat_completion client self a m fmt r vcb kw =
      ⟨(chat_completion client self (a + 1) m fmt (r - 1) validation_callback
          (dictRemove (updated_kwargs self m kw) "messages")).result,
       (chat_completion client self (a + 1) m fmt (r - 1) validation_callback
          (dictRemove (updated_kwargs self m kw) "messages")).attempts + 1,
       r :: (chat_completion client self (a + 1) m fmt (r - 1) validation_callback
          (dictRemove (updated_kwargs self m kw) "messages")).budget_trace⟩) ∨
    (¬ 0 < r - 1 ∧
      chat_completion client self a m fmt r vcb kw = ⟨none, 1, [r, r - 1]⟩) := by
  rw [chat_completion.eq_def]
  simp only []
  cases hcl : client a (unwrapMessages m) (dictRemove (updated_kwargs self m kw) "messages") with
  | error e =>
    dsimp only
    by_cases h : 0 < r - 1
    · right; left
      exact ⟨h, by rw [dif_pos h]⟩
    · right; right
      exact ⟨h, by rw [dif_neg h]⟩
  | ok cc =>
    dsimp only
    cases hp : (parse_chat_completion_response ⟨some cc, some m⟩ fmt
        (dictRemove (updated_kwargs self m kw) "messages")).1 with
    | error e =>
      dsimp only
      by_cases h : 0 < r - 1
      · right; left
        exact ⟨h, by rw [dif_pos h]⟩
      · right; right
        exact ⟨h, by rw [dif_neg h]⟩
    | ok resp =>
      dsimp only
      by_cases hv : vcb m resp = true
      · left
        exact ⟨resp, hv, by rw [if_pos hv]⟩
      · have hv2 : vcb m resp = false := by
          cases hvv : vcb m resp
          · rfl
          · exact absurd hvv hv
        by_cases h : 0 < r - 1
        · right; left
          refine ⟨h, ?_⟩
          rw [hv2]
          simp only [Bool.false_eq_true, if_false]
          rw [dif_pos h]
        · right; right
          refine ⟨h, ?_⟩
          rw [hv2]
          simp only [Bool.false_eq_true, if_false]
          rw [dif_neg h]

/-- Under a remote client that always raises, `num_retries = n + 1` yields
exactly `n + 1` attempts and the `None` result. -/
theorem alwaysFail_outcome (n : Nat) :
    ∀ (self : ChatModel) (a : Nat) (m : MessagesType) (fmt : Option String)
      (vcb : MessagesType → ParseOutput → Bool) (kw : PyDict),
      (chat_completion alwaysFailClient self a m fmt ((n : Int) + 1) vcb kw).result
          = none ∧
      (chat_completion alwaysFailClient self a m fmt ((n : Int) + 1) vcb kw).attempts
          = n + 1 := by
  induction n with
  | zero =>
    intro self a m fmt vcb kw
    constructor <;> simp [chat_completion, alwaysFailClient]
  | succ n ih =>
    intro self a m fmt vcb kw
    have hcond : (0 : Int) < ((n + 1 : Nat) : Int) + 1 - 1 := by push_cast; omega
    have harg : ((n + 1 : Nat) : Int) + 1 - 1 = (n : Int) + 1 := by push_cast; ring
    rw [chat_completion.eq_def]
    simp only [alwaysFailClient]
    rw [dif_pos hcond, harg]
    have h2 := ih self (a + 1) m fmt validation_callback
      (dictRemove (updated_kwargs self m kw) "messages")
    constructor
    · exact h2.1
    · simp only [ChatOutcome.mk.injEq]
      simp
      exact h2.2

/-- The budget-counter invariant for positive initial budgets, phrased for
`num_retries = n + 1`: the recorded counter values stay within
`[0, n + 1]`, and when the request is abandoned with `None` the last counter
value is exactly `0`. -/
theorem budget_trace_aux (n : Nat) :
    ∀ (client : Nat → List MsgEntry → PyDict → Except String ChatCompletionObj)
      (self : ChatModel) (a : Nat) (m : MessagesType) (fmt : Option String)
      (vcb : MessagesType → ParseOutput → Bool) (kw : PyDict),
      (chat_completion client self a m fmt ((n : Int) + 1) vcb kw).budget_trace ≠ [] ∧
      (∀ x ∈ (chat_completion client self a m fmt ((n : Int) + 1) vcb kw).budget_trace,
        0 ≤ x ∧ x ≤ (n : Int) + 1) ∧
      ((chat_completion client self a m fmt ((n : Int) + 1) vcb kw).result = none →
        (chat_completion client self a m fmt ((n : Int) + 1) vcb kw).budget_trace.getLast?
          = some 0) := by
  induction n with
  | zero =>
    intro client self a m fmt vcb kw
    simp only [Nat.cast_zero]
    rcases chat_completion_cases client self a m fmt ((0 : Int) + 1) vcb kw with
      ⟨resp, hv, heq⟩ | ⟨hpos, heq⟩ | ⟨hneg, heq⟩
    · rw [heq]
      refine ⟨by simp, ?_, by simp⟩
      intro x hx
      simp at hx
      omega
    · exact absurd hpos (by norm_num)
    · rw [heq]
      refine ⟨by simp, ?_, ?_⟩
      · intro x hx
        simp at hx
        rcases hx with h1 | h1 <;> omega
      · intro _
        norm_num [List.getLast?]
  | succ n ih =>
    intro client self a m fmt vcb kw
    rcases chat_completion_cases client self a m fmt (((n + 1 : Nat) : Int) + 1) vcb kw with
      ⟨resp, hv, heq⟩ | ⟨hpos, heq⟩ | ⟨hneg, heq⟩
    · rw [heq]
      refine ⟨by simp, ?_, by simp⟩
      intro x hx
      simp at hx
      constructor <;> (rw [hx]; omega)
    · rw [heq]
      have harg : ((n + 1 : Nat) : Int) + 1 - 1 = (n : Int) + 1 := by push_cast; ring
      rw [harg]
      obtain ⟨hne, hmem, hlast⟩ := ih client self (a + 1) m fmt validation_callback
        (dictRemove (updated_kwargs self m kw) "messages")
      obtain ⟨hd, tl, hsub⟩ := List.exists_cons_of_ne_nil hne
      refine ⟨by simp, ?_, ?_⟩
      · intro x hx
        simp only [List.mem_cons] at hx
        rcases hx with h1 | h1
        · subst h1
          constructor <;> omega
        · have h3 := hmem x h1
          exact ⟨h3.1, by have h2 := h3.2; omega⟩
      · intro hres
        simp only [ChatOutcome.mk.injEq] at hres ⊢
        rw [hsub, List.getLast?_cons_cons]
        rw [hsub] at hlast
        exact hlast hres
    · exact absurd (by omega) hneg

/-! Helper lemmas about the response parser. -/

/-- The parser only reads the caller's completion and messages: every branch
returns the input state unchanged. -/
theorem parse_state_unchanged (st : ParseState) (fmt : Option String) (kwargs : PyDict) :
    (parse_chat_completion_response st fmt kwargs).2 = st := by
  simp only [parse_chat_completion_response]
  repeat' split
  all_goals rfl

/-- With well-formed messages and `output_format=None`, the parser returns
the raw completion unchanged, for any kwargs dict. -/
theorem parse_raw_goodMessages (cc : ChatCompletionObj) (kwargs : PyDict) :
    (parse_chat_completion_response ⟨some cc, some goodMessages⟩ none kwargs).1
      = .ok (.raw (some cc)) := rfl

/-- An attempt under the always-succeeding client and the module default
validator is accepted immediately. -/
theorem chat_accept_default (self : ChatModel) (a : Nat) (r : Int) (kw : PyDict) :
    chat_completion alwaysOkClient self a goodMessages none r validation_callback kw
      = ⟨some (.raw (some (ccStub a))), 1, [r]⟩ := by
  rw [chat_completion.eq_def]
  simp only [alwaysOkClient]
  rw [parse_raw_goodMessages]
  simp [validation_callback]

/-- With a rejecting caller validator, an always-succeeding client and
budget at least 2, the retry drops the caller's validator, so the second
attempt is accepted and returned after exactly 2 attempts. -/
theorem reject_then_default_accept (self : ChatModel) (r : Int)
    (vcb : MessagesType → ParseOutput → Bool) (kw : PyDict) (hr : 2 ≤ r)
    (hrej : vcb goodMessages (ParseOutput.raw (some (ccStub 0))) = false) :
    chat_completion alwaysOkClient self 0 goodMessages none r vcb kw
      = ⟨some (.raw (some (ccStub 1))), 2, [r, r - 1]⟩ := by
  rw [chat_completion.eq_def]
  simp only [alwaysOkClient]
  rw [parse_raw_goodMessages]
  simp only [hrej, Bool.false_eq_true, if_false]
  rw [dif_pos (by omega : (0 : Int) < r - 1)]
  rw [chat_accept_default]

/-! Claim theorems. -/

/-- C1: the claim states that with an always-failing remote client and retry
budget `r`, exactly `r + 1` attempts are made. Evaluating the embedded code:
budget 1 produces exactly 1 attempt (the claim demands 2), budget 5 produces
5 attempts (the claim demands 6) — `attempt_retry` decrements before testing
positivity, so the code makes `max r 1` attempts. Only the `r = 0` edge case
(1 attempt) and the `None` result agree with the claim. -/
theorem num_retries_attempt_count_eval :
    (chat_completion alwaysFailClient {} 0 goodMessages none 1
      validation_callback []).attempts = 1 ∧
    (chat_completion alwaysFailClient {} 0 goodMessages none 1
      validation_callback []).result = none ∧
    (chat_completion alwaysFailClient {} 0 goodMessages none 0
      validation_callback []).attempts = 1 ∧
    (chat_completion alwaysFailClient {} 0 goodMessages none 5
      validation_callback []).attempts = 5 := by
  refine ⟨?_, ?_, ?_, ?_⟩ <;> simp [chat_completion, alwaysFailClient]

/-- C2: the claim states that with an always-succeeding client and an
always-rejecting validator, budget `r` yields `r + 1` attempts and `Absent`.
Evaluating the embedded code at `r = 2`: only 2 attempts occur and the call
returns the second attempt's response (the retry re-invocation omits the
caller's validator, falling back to the always-accepting default), so the
result is not `Absent`; at `r = 1` a single attempt occurs (not 2), with
`Absent`. -/
theorem validation_reject_retry_eval :
    (chat_completion alwaysOkClient {} 0 goodMessages none 2
      (fun x y => false) []).attempts = 2 ∧
    (chat_completion alwaysOkClient {} 0 goodMessages none 2
      (fun x y => false) []).result
        = some (.raw (some (ccStub 1))) ∧
    (chat_completion alwaysOkClient {} 0 goodMessages none 1
      (fun x y => false) []).attempts = 1 ∧
    (chat_completion alwaysOkClient {} 0 goodMessages none 1
      (fun x y => false) []).result = none := by
  have h2 := reject_then_default_accept ({} : ChatModel) 2 (fun x y => false) []
    (by norm_num) rfl
  have h1 : chat_completion alwaysOkClient {} 0 goodMessages none 1
      (fun x y => false) [] = ⟨none, 1, [1, 0]⟩ := by
    rw [chat_completion.eq_def]
    simp only [alwaysOkClient]
    rw [parse_raw_goodMessages]
    norm_num
  exact ⟨by rw [h2], by rw [h2], by rw [h1], by rw [h1]⟩

/-- C3 (counterexample): the claim demands the batch-timeout condition on
every execution path. On the fallback path (no running event loop), the
dispatcher executes the batch with `asyncio.run`, to which the caller's
`timeout` is never passed: with `timeout = 1` elapsing before the batch
duration 2, dispatch still returns a result list, not the batch-timeout
failure. -/
theorem dispatch_timeout_ignored_on_fallback_path :
    (1 : Nat) < 2 ∧
    async_chat_completions (fun m => ⟨none, 1, []⟩) [goodMessages] [0]
        false (some 1) 2 ≠ DispatchOutcome.batchTimeout := by
  constructor
  · decide
  · decide

/-- C3 (amended): on the path where a running event loop exists, the
collector task is awaited through `asyncio.wait_for` with the caller's
`timeout`, so a timeout that elapses before the batch finishes makes the
dispatch fail with the batch-timeout condition rather than return results. -/
theorem dispatch_batch_timeout_on_loop_path (task : MessagesType → ChatOutcome)
    (l : List MessagesType) (order : List Nat) (t d : Nat) (h : t < d) :
    async_chat_completions task l order true (some t) d
      = DispatchOutcome.batchTimeout := by
  simp [async_chat_completions, h]

/-- C3 (witness for the amended theorem). -/
theorem dispatch_batch_timeout_on_loop_path_witness :
    (1 : Nat) < 2 ∧
    async_chat_completions (fun m => ⟨none, 1, []⟩) [goodMessages] [0]
        true (some 1) 2 = DispatchOutcome.batchTimeout :=
  ⟨by decide,
    dispatch_batch_timeout_on_loop_path (fun m => ⟨none, 1, []⟩)
      [goodMessages] [0] 1 2 (by decide)⟩

/-- C4 (counterexample): the claim includes the empty batch (N = 0), but
with an empty `messages_list` the task list is empty and
`await asyncio.wait(task_list)` raises
`ValueError: Set of Tasks/Futures is empty.` — on every dispatch path the
exception propagates to the caller, so dispatch raises instead of returning
the claimed length-0 result sequence. -/
theorem dispatch_empty_batch_raises :
    generate_concurrent (fun m => ⟨none, 1, []⟩) [] []
      = .error "ValueError: Set of Tasks/Futures is empty." ∧
    async_chat_completions (fun m => ⟨none, 1, []⟩) [] [] false none 0
      = DispatchOutcome.error "ValueError: Set of Tasks/Futures is empty." ∧
    DispatchOutcome.error "ValueError: Set of Tasks/Futures is empty."
      ≠ DispatchOutcome.results [] :=
  ⟨rfl, rfl, by decide⟩

/-- C4 (amended): for every NONEMPTY input list and every completion-order
permutation of the task indices, `generate_concurrent` returns (with no
exception) a list of the same length whose i-th element is the resolved
result of the i-th input request; for the empty batch it raises the
`ValueError` of the counterexample instead. -/
theorem dispatch_output_index_aligned (task : MessagesType → ChatOutcome)
    (l : List MessagesType) (order : List Nat) (hne : l ≠ [])
    (horder : order.Perm (List.range l.length)) :
    generate_concurrent task l order = .ok (gatherByIndex task l order) ∧
    (gatherByIndex task l order).length = l.length ∧
    ∀ i : Nat, (gatherByIndex task l order).get? i
        = (l.get? i).map (fun m => some (task m)) := by
  have h := gatherByIndex_eq_map task l order horder
  refine ⟨?_, ?_, ?_⟩
  · unfold generate_concurrent
    rw [if_neg (by simpa using hne)]
  · rw [h, List.length_map]
  · intro i
    rw [h, List.get?_eq_getElem?, List.get?_eq_getElem?, List.getElem?_map]

/-- C4 (witness): a two-request batch whose tasks complete in reversed
order still gathers index-aligned results. -/
theorem dispatch_output_index_aligned_witness :
    ([goodMessages, MessagesType.plain []] : List MessagesType) ≠ [] ∧
    ([1, 0] : List Nat).Perm
      (List.range ([goodMessages, MessagesType.plain []] : List MessagesType).length) ∧
    generate_concurrent (fun m => ⟨none, 1, []⟩)
      [goodMessages, MessagesType.plain []] [1, 0]
        = .ok (gatherByIndex (fun m => ⟨none, 1, []⟩)
            [goodMessages, MessagesType.plain []] [1, 0]) ∧
    (gatherByIndex (fun m => ⟨none, 1, []⟩)
      [goodMessages, MessagesType.plain []] [1, 0]).length
        = ([goodMessages, MessagesType.plain []] : List MessagesType).length ∧
    (gatherByIndex (fun m => ⟨none, 1, []⟩)
      [goodMessages, MessagesType.plain []] [1, 0]).get? 0
        = (([goodMessages, MessagesType.plain []] : List MessagesType).get? 0).map
            (fun m => some (⟨none, 1, []⟩ : ChatOutcome)) ∧
    (gatherByIndex (fun m => ⟨none, 1, []⟩)
      [goodMessages, MessagesType.plain []] [1, 0]).get? 1
        = (([goodMessages, MessagesType.plain []] : List MessagesType).get? 1).map
            (fun m => some (⟨none, 1, []⟩ : ChatOutcome)) :=
  ⟨by decide, by decide,
    (dispatch_output_index_aligned (fun m => ⟨none, 1, []⟩)
      [goodMessages, MessagesType.plain []] [1, 0] (by decide) (by decide)).1,
    (dispatch_output_index_aligned (fun m => ⟨none, 1, []⟩)
      [goodMessages, MessagesType.plain []] [1, 0] (by decide) (by decide)).2.1,
    (dispatch_output_index_aligned (fun m => ⟨none, 1, []⟩)
      [goodMessages, MessagesType.plain []] [1, 0] (by decide) (by decide)).2.2 0,
    (dispatch_output_index_aligned (fun m => ⟨none, 1, []⟩)
      [goodMessages, MessagesType.plain []] [1, 0] (by decide) (by decide)).2.2 1⟩

/-- C5: every retried attempt of `chat_completion` / `async_chat_completion`
applies the module-level default (always-accepting) validator instead of the
caller's: with an always-succeeding client, any validator rejecting the
first response, and budget at least 2, exactly 2 attempts occur and the
second attempt's response is accepted and returned. -/
theorem retry_applies_default_validator (self : ChatModel) (r : Int)
    (vcb : MessagesType → ParseOutput → Bool) (kw : PyDict) (hr : 2 ≤ r)
    (hrej : vcb goodMessages (ParseOutput.raw (some (ccStub 0))) = false) :
    chat_completion alwaysOkClient self 0 goodMessages none r vcb kw
      = ⟨some (.raw (some (ccStub 1))), 2, [r, r - 1]⟩ ∧
    async_chat_completion alwaysOkClient self 0 goodMessages none r vcb kw
      = ⟨some (.raw (some (ccStub 1))), 2, [r, r - 1]⟩ := by
  have h := reject_then_default_accept self r vcb kw hr hrej
  exact ⟨h, by unfold async_chat_completion; exact h⟩

/-- C5 (witness): budget 3 with an always-rejecting validator. -/
theorem retry_applies_default_validator_witness :
    (2 : Int) ≤ 3 ∧
    ((fun (x : MessagesType) (y : ParseOutput) => false) goodMessages
      (ParseOutput.raw (some (ccStub 0))) = false) ∧
    (chat_completion alwaysOkClient {} 0 goodMessages none 3
        (fun x y => false) []
      = ⟨some (.raw (some (ccStub 1))), 2, [3, 3 - 1]⟩ ∧
    async_chat_completion alwaysOkClient {} 0 goodMessages none 3
        (fun x y => false) []
      = ⟨some (.raw (some (ccStub 1))), 2, [3, 3 - 1]⟩) :=
  ⟨by norm_num, rfl,
    retry_applies_default_validator {} 3 (fun x y => false) [] (by norm_num) rfl⟩

/-- C6: for every capacity `k ≥ 1`, in every state the scheduler can reach,
at most `k` tasks hold the admission gate simultaneously; a task only runs
its remote call while holding a slot, and releases it on every exit path
(the `finish` step covers both outcomes). -/
theorem admission_gate_holders_bounded (k : Nat) (hk : 1 ≤ k)
    (s : List TaskPhase) (h : SemReachable k s) : holdersCount s ≤ k :=
  semaphore_bound_aux k s h

/-- C6 (witness): capacity 1, two tasks, after one acquire step. -/
theorem admission_gate_holders_bounded_witness :
    (1 : Nat) ≤ 1 ∧
    holdersCount [TaskPhase.holding, TaskPhase.waiting] ≤ 1 := by
  constructor
  · decide
  · exact admission_gate_holders_bounded 1 (by decide)
      [TaskPhase.holding, TaskPhase.waiting]
      (SemReachable.step (List.replicate 2 .waiting)
        [TaskPhase.holding, TaskPhase.waiting]
        (SemReachable.init 2)
        (SemStep.acquire (List.replicate 2 .waiting) 0 (by decide) (by decide)))

/-- C7 (counterexample): with retry budget 0 at entry, the failing attempt
calls `attempt_retry(0 - 1)`, so the counter takes the value `-1` — the
budget does become negative, refuting the invariant as claimed. -/
theorem budget_counter_negative_at_zero_budget :
    (chat_completion alwaysFailClient {} 0 goodMessages none 0
      validation_callback []).budget_trace = [0, -1] ∧
    (chat_completion alwaysFailClient {} 0 goodMessages none 0
      validation_callback []).result = none ∧
    ((-1 : Int) < 0) := by
  refine ⟨?_, ?_, by decide⟩ <;> simp [chat_completion, alwaysFailClient]

/-- C7 (amended): for every initial budget `r ≥ 1`, every value the
`num_retries` counter takes during the execution lies in `[0, r]` (never
negative), and whenever the request is permanently abandoned with `None`
the final counter value is exactly 0. (With `r = 0` the decremented counter
reaches `-1`, see the counterexample.) -/
theorem budget_invariant_positive_budget
    (client : Nat → List MsgEntry → PyDict → Except String ChatCompletionObj)
    (self : ChatModel) (a : Nat) (m : MessagesType) (fmt : Option String)
    (vcb : MessagesType → ParseOutput → Bool) (kw : PyDict)
    (r : Int) (hr : 1 ≤ r) :
    (chat_completion client self a m fmt r vcb kw).budget_trace ≠ [] ∧
    (∀ x ∈ (chat_completion client self a m fmt r vcb kw).budget_trace,
      0 ≤ x ∧ x ≤ r) ∧
    ((chat_completion client self a m fmt r vcb kw).result = none →
      (chat_completion client self a m fmt r vcb kw).budget_trace.getLast?
        = some 0) := by
  obtain ⟨n, rfl⟩ : ∃ n : Nat, r = (n : Int) + 1 := ⟨(r - 1).toNat, by omega⟩
  exact budget_trace_aux n client self a m fmt vcb kw

/-- C7 (witness for the amended theorem): initial budget 2 under the
always-failing client. -/
theorem budget_invariant_positive_budget_witness :
    (1 : Int) ≤ 2 ∧
    ((chat_completion alwaysFailClient {} 0 goodMessages none 2
      validation_callback []).budget_trace ≠ [] ∧
    (∀ x ∈ (chat_completion alwaysFailClient {} 0 goodMessages none 2
      validation_callback []).budget_trace, 0 ≤ x ∧ x ≤ 2) ∧
    ((chat_completion alwaysFailClient {} 0 goodMessages none 2
      validation_callback []).result = none →
      (chat_completion alwaysFailClient {} 0 goodMessages none 2
        validation_callback []).budget_trace.getLast? = some 0)) :=
  ⟨by norm_num,
    budget_invariant_positive_budget alwaysFailClient {} 0 goodMessages none
      validation_callback [] 2 (by norm_num)⟩

/-- C8: in the merged per-call parameters `default_kwargs | kwargs`, every
key the caller supplies explicitly takes its caller-supplied value, and
every key the caller does not supply keeps the instance default. -/
theorem per_call_kwargs_override_defaults (self : ChatModel)
    (messages : MessagesType) (kwargs : PyDict) (key : String) (v : Value)
    (hnd : (kwargs.map Prod.fst).Nodup) :
    (dictGet kwargs key = some v →
      dictGet (updated_kwargs self messages kwargs) key = some v) ∧
    (dictGet kwargs key = none →
      dictGet (updated_kwargs self messages kwargs) key
        = dictGet (default_kwargs self messages) key) := by
  constructor
  · intro h
    exact dictGet_dictUnion_of_some _ _ _ _ hnd h
  · intro h
    exact dictGet_dictUnion_of_none _ _ _ h

/-- C8 (witness): an explicit temperature override wins; the untouched
top_p keeps the instance default. -/
theorem per_call_kwargs_override_defaults_witness :
    ((([("temperature", Value.int 0)] : PyDict).map Prod.fst).Nodup) ∧
    (dictGet (updated_kwargs {} goodMessages [("temperature", Value.int 0)])
        "temperature" = some (Value.int 0)) ∧
    (dictGet (updated_kwargs {} goodMessages [("temperature", Value.int 0)])
        "top_p" = dictGet (default_kwargs {} goodMessages) "top_p") :=
  ⟨by simp,
    (per_call_kwargs_override_defaults {} goodMessages
      [("temperature", Value.int 0)] "temperature" (Value.int 0) (by simp)).1 rfl,
    (per_call_kwargs_override_defaults {} goodMessages
      [("temperature", Value.int 0)] "top_p" (Value.int 0) (by simp)).2 rfl⟩

/-- C9: `parse_chat_completion_response` is a pure mapping — it returns the
caller's completion and messages unchanged (no mutation), and invoking it a
second time on the state the first invocation returned, with the same
arguments, yields the identical output record. -/
theorem parse_response_deterministic_idempotent (st : ParseState)
    (fmt : Option String) (kwargs : PyDict) :
    (parse_chat_completion_response st fmt kwargs).2 = st ∧
    (parse_chat_completion_response
        (parse_chat_completion_response st fmt kwargs).2 fmt kwargs).1
      = (parse_chat_completion_response st fmt kwargs).1 := by
  have h := parse_state_unchanged st fmt kwargs
  exact ⟨h, by rw [h]⟩

/-- C10: when `messages` is given but contains no system-role entry or no
user-role entry, `parse_chat_completion_response` raises the out-of-bounds
`IndexError` from `[...][0]` before examining the completion or the output
format — for every `output_format`, including `raw`, and every completion. -/
theorem parse_requires_system_and_user (cc : Option ChatCompletionObj)
    (fmt : Option String) (m : MessagesType) (kwargs : PyDict)
    (h : (unwrapMessages m).filter (fun e => e.role == "system") = [] ∨
         (unwrapMessages m).filter (fun e => e.role == "user") = []) :
    (parse_chat_completion_response ⟨cc, some m⟩ fmt kwargs).1
      = .error "IndexError: list index out of range" := by
  unfold parse_chat_completion_response
  rcases h with h | h
  · simp [h]
  · cases hs : (unwrapMessages m).filter (fun e => e.role == "system") with
    | nil => simp [hs]
    | cons hd tl => simp [hs, h]

/-- C10 (witness): a user-only message list under `output_format="raw"`. -/
theorem parse_requires_system_and_user_witness :
    ((unwrapMessages (MessagesType.plain [⟨"user", "u"⟩])).filter
        (fun e => e.role == "system") = [] ∨
     (unwrapMessages (MessagesType.plain [⟨"user", "u"⟩])).filter
        (fun e => e.role == "user") = []) ∧
    (parse_chat_completion_response
        ⟨none, some (MessagesType.plain [⟨"user", "u"⟩])⟩ (some "raw") []).1
      = .error "IndexError: list index out of range" :=
  ⟨Or.inl rfl,
    parse_requires_system_and_user none (some "raw")
      (MessagesType.plain [⟨"user", "u"⟩]) [] (Or.inl rfl)⟩
